import Mathlib

/-!
Verification of the credential lifecycle of the `neonctl` auth module
(`src/auth.ts`: the `auth` / `refreshToken` OAuth flow and the
`authFlow` / `preserveCredentials` / `ensureAuth` command module).

The TypeScript is effectful; we embed it shallowly:
* network calls (OIDC discovery + refresh, interactive login, identity
  lookup) and the environment check `isCi()` become fields of an
  `Oracle` record, so a theorem quantifies over every possible outcome
  of the collaborators;
* each function returns its result together with a trace (`List Event`)
  of the externally visible actions it performed, so "never invokes
  refresh / login / discovery" and "nothing is written" become
  statements about the trace;
* the on-disk credential file is classified exactly by the branches the
  source distinguishes (`existsSync` false, `readFileSync` throwing,
  `JSON.parse` throwing, parsed token data);
* JavaScript errors are `JsError` (a `message` plus an optional `code`),
  because the catch clause of `ensureAuth` inspects precisely
  `e.message.includes("AUTH_REFRESH_FAILED")` and `e.code === "ENOENT"`.
-/

namespace NeonAuth

/-- True when the second char list begins with the first
(character-by-character).  Used to embed JavaScript
`String.prototype.startsWith`. -/
def leadMatch : List Char → List Char → Bool
  | [], _ => true
  | _ :: _, [] => false
  | a :: as, b :: bs => a == b && leadMatch as bs

/-- True when `needle` occurs as a contiguous run inside the second
list.  Used to embed JavaScript `String.prototype.includes`. -/
def hasSub (needle : List Char) : List Char → Bool
  | [] => needle.isEmpty
  | b :: bs => leadMatch needle (b :: bs) || hasSub needle bs

/-- Embeds `hay.includes(needle)` from the catch clause of the source. -/
def containsSubstr (needle hay : String) : Bool :=
  hasSub needle.data hay.data

/-- Embeds `s.startsWith(pre)` (used on `request.url`). -/
def strStartsWith (pre s : String) : Bool :=
  leadMatch pre.data s.data

/-- The token payload the source manipulates.  The `TokenSet` of
`openid-client` carries more fields; the claims only inspect
`access_token`, `refresh_token` and `expires_at`, so we embed those
(`expires_at` in epoch seconds). -/
structure TokenSetData where
  access_token : Option String
  refresh_token : Option String
  expires_at : Option Nat
deriving DecidableEq

/-- Modelled from the external `openid-client` library:
`TokenSet.expired()` returns `expires_in === 0` where
`expires_in = max(floor(expires_at - now), 0)`; with integer
timestamps that is `expires_at ≤ now`, and an absent `expires_at`
yields `NaN`, which is never `=== 0`, hence "not expired". -/
def TokenSetData.expired (t : TokenSetData) (now : Nat) : Bool :=
  match t.expires_at with
  | none => false
  | some e => e ≤ now

/-- What `preserveCredentials` serialises with `JSON.stringify`:
the spread of the whole token set plus the resolved `user_id`
(`{...credentials, user_id: id}`). -/
structure StoredCredential where
  tok : TokenSetData
  user_id : String
deriving DecidableEq

/-- A JavaScript error as the source observes it: the catch clause of
`ensureAuth` reads `e.message` (substring test) and `(e as {code}).code`. -/
structure JsError where
  message : String
  code : Option String
deriving DecidableEq

/-- The credential file state, classified exactly by the branches
`ensureAuth` distinguishes:
* `absent` — `existsSync(credentialsPath)` is false;
* `readError e` — the file exists but `readFileSync` throws `e`
  (e.g. `code = "EACCES"` for a permissions fault, or `"ENOENT"` when
  the file vanished between the existence check and the read);
* `corrupt msg` — the file reads but `JSON.parse` throws a
  `SyntaxError` whose message is `msg` (a `SyntaxError` has no `code`);
* `parsed tok` — the contents parse and yield this token data. -/
inductive CredFile
  | absent
  | readError (e : JsError)
  | corrupt (msg : String)
  | parsed (tok : TokenSetData)
deriving DecidableEq

/-- Externally visible actions of the auth module.
`loginFlow` stands for the whole interactive `auth()` call (issuer
discovery, loopback listener, browser launch, code exchange);
`refreshCall` for the whole `refreshToken()` call (discovery + refresh
grant); `identityCall` for `apiClient.getCurrentUserInfo()`;
`fileWrite sc` for `writeFileSync` of the serialised credential. -/
inductive Event
  | loginFlow
  | refreshCall
  | identityCall
  | fileWrite (sc : StoredCredential)
deriving DecidableEq

/-- Outcomes of the external collaborators and the environment, fixed
for one invocation: `now` (the clock used by `TokenSet.expired`),
`ci` (`isCi()`), the credential file state, and the results of the
refresh grant, the interactive login, and the identity lookup. -/
structure Oracle where
  now : Nat
  ci : Bool
  credFile : CredFile
  refresh : TokenSetData → Except JsError TokenSetData
  login : Except JsError TokenSetData
  identity : TokenSetData → Except JsError String

/-- The argument record of `authFlow` / `ensureAuth` (`AuthProps` plus
the extra `ensureAuth` fields): `args` is `props._`, `apiKey` the
explicit key (JS-falsy when `""`), `forceAuth` the forced-interactive
flag. -/
structure AuthProps where
  args : List String
  help : Bool
  apiKey : String
  forceAuth : Bool
  configDir : String
  oauthHost : String
  clientId : String
  apiHost : String

/-- JavaScript `x || d` on an optional string: `undefined` and `""`
are falsy. -/
def jsOr : Option String → String → String
  | none, d => d
  | some s, d => if s = "" then d else s

/-- How `ensureAuth` leaves the process state: `skipped` (no args /
help — early return), `usedExplicit k` (explicit API key or the `auth`
subcommand — the client is built from `props.apiKey` directly),
`authorized k` (the file/refresh/login logic produced key `k`). -/
inductive EnsureResult
  | skipped
  | usedExplicit (apiKey : String)
  | authorized (apiKey : String)
deriving DecidableEq

/-- Embeds `preserveCredentials(path, credentials, apiClient)`: first
`await apiClient.getCurrentUserInfo()`; if that throws, the error
propagates and nothing is written; otherwise `JSON.stringify({...credentials,
user_id: id})` is written as the whole file contents (the write itself
is modelled as succeeding; fs write faults are out of scope of the
claims). -/
def preserveCredentials (credentials : TokenSetData) (o : Oracle) :
    Except JsError StoredCredential × List Event :=
  match o.identity credentials with
  | .error e => (.error e, [.identityCall])
  | .ok id =>
      let sc : StoredCredential := ⟨credentials, id⟩
      (.ok sc, [.identityCall, .fileWrite sc])

/-- Embeds `authFlow`: refuse when `!forceAuth && isCi()` (thrown before
anything else happens, hence the empty trace); otherwise run the
interactive `auth()` flow, persist via `preserveCredentials`, and
return `tokenSet.access_token || ""`. -/
def authFlow (p : AuthProps) (o : Oracle) : Except JsError String × List Event :=
  if !p.forceAuth && o.ci then
    (.error ⟨"Cannot run interactive auth in CI", none⟩, [])
  else
    match o.login with
    | .error e => (.error e, [.loginFlow])
    | .ok tokenSet =>
        let pres := preserveCredentials tokenSet o
        (pres.1.map (fun _ => jsOr tokenSet.access_token ""), .loginFlow :: pres.2)

/-- Embeds the catch clause of `ensureAuth`: fall back to `authFlow`
when `e.message.includes("AUTH_REFRESH_FAILED")` or
`e.code === "ENOENT"`; rethrow any other error.  `evs` is the trace
accumulated inside the try block before the throw. -/
def ensureAuthCatch (p : AuthProps) (o : Oracle) (e : JsError) (evs : List Event) :
    Except JsError EnsureResult × List Event :=
  if containsSubstr "AUTH_REFRESH_FAILED" e.message || e.code == some "ENOENT" then
    let flow := authFlow p o
    (flow.1.map .authorized, evs ++ flow.2)
  else
    (.error e, evs)

/-- Embeds `ensureAuth`:
* no args or `--help` → early return;
* explicit `apiKey` (truthy) or the `auth` subcommand → use the key
  directly, skip all file logic;
* credential file absent → `authFlow`;
* file read or parse throwing → the catch clause (`ensureAuthCatch`);
* parsed and expired → `refreshToken`; a refresh fault is rethrown as
  `new Error("AUTH_REFRESH_FAILED")` into the catch clause; on success
  `apiKey = refreshed.access_token || "UNKNOWN"` and the refreshed set
  is persisted (a `preserveCredentials` fault also lands in the catch
  clause);
* parsed and not expired → `apiKey = tokenSet.access_token || "UNKNOWN"`. -/
def ensureAuth (p : AuthProps) (o : Oracle) : Except JsError EnsureResult × List Event :=
  if p.args.isEmpty || p.help then
    (.ok .skipped, [])
  else if p.apiKey != "" || p.args.head? == some "auth" then
    (.ok (.usedExplicit p.apiKey), [])
  else
    match o.credFile with
    | .absent =>
        let flow := authFlow p o
        (flow.1.map .authorized, flow.2)
    | .readError e => ensureAuthCatch p o e []
    | .corrupt msg => ensureAuthCatch p o ⟨msg, none⟩ []
    | .parsed tokenSet =>
        if tokenSet.expired o.now then
          match o.refresh tokenSet with
          | .error _ => ensureAuthCatch p o ⟨"AUTH_REFRESH_FAILED", none⟩ [.refreshCall]
          | .ok refreshedTokenSet =>
              let pres := preserveCredentials refreshedTokenSet o
              match pres.1 with
              | .error e => ensureAuthCatch p o e (.refreshCall :: pres.2)
              | .ok _ =>
                  (.ok (.authorized (jsOr refreshedTokenSet.access_token "UNKNOWN")),
                   .refreshCall :: pres.2)
        else
          (.ok (.authorized (jsOr tokenSet.access_token "UNKNOWN")), [])

/-! ## Loopback callback receiver

`auth()` starts `createServer()`, and its request handler does:
`if (!request.url?.startsWith("/callback")) ... ` (404 and return) else
exchange the code (`neonOAuthClient.callback`, which can reject),
respond 200 with the success page, `resolve(tokenSet)` and
`server.close()`.  We model the single-threaded event loop as a fold of
the handler over the incoming request sequence; a closed listener
serves nothing. -/

/-- An inbound HTTP request as the handler sees it: `request.url`
(path plus query string). -/
structure HttpRequest where
  url : String
deriving DecidableEq

/-- What the handler writes back: `writeHead(404)` or the
`200 text/html` success page (`callback.html`). -/
inductive HttpResponse
  | notFound
  | successPage
deriving DecidableEq

/-- Receiver state: whether the promise has been resolved (and with
which token set), and whether `server.close()` has run. -/
structure ServerState where
  resolved : Option TokenSetData
  closed : Bool
deriving DecidableEq

/-- The state right after `server.listen(0, ...)`: unresolved, open. -/
def initialServer : ServerState := ⟨none, false⟩

/-- One step of the `server.on("request", ...)` handler.  `exchange`
is `neonOAuthClient.callback(...)` (the code-for-token exchange) as a
function of the request; when it rejects, the async handler aborts:
no response is written, the promise stays unresolved, the server stays
open.  Returns the new state and the response written (if any). -/
def handleRequest (exchange : HttpRequest → Except JsError TokenSetData)
    (st : ServerState) (req : HttpRequest) : ServerState × Option HttpResponse :=
  if st.closed then
    (st, none)
  else if !strStartsWith "/callback" req.url then
    (st, some .notFound)
  else
    match exchange req with
    | .error _ => (st, none)
    | .ok tokenSet => (⟨some tokenSet, true⟩, some .successPage)

/-- Serve a sequence of requests in arrival order, collecting the
response to each. -/
def serveAll (exchange : HttpRequest → Except JsError TokenSetData) :
    ServerState → List HttpRequest → ServerState × List (Option HttpResponse)
  | st, [] => (st, [])
  | st, r :: rs =>
      let step := handleRequest exchange st r
      let rest := serveAll exchange step.1 rs
      (rest.1, step.2 :: rest.2)

/-! ## PKCE wiring of `auth()`

`auth()` computes `state = generators.state()`,
`codeVerifier = generators.codeVerifier()`,
`codeChallenge = generators.codeChallenge(codeVerifier)`, puts
`{scope, state, code_challenge: codeChallenge, code_challenge_method: "S256"}`
into the authorization URL, and later passes
`{code_verifier: codeVerifier, state}` to the token-exchange callback.
The generator functions live in the external `openid-client` library;
we model them as fields of a `Generators` record, keyed by the login
attempt (the random draw of that attempt), with `codeChallenge` an
arbitrary deterministic derivation — per its library contract,
base64url of the SHA-256 digest of the verifier (the `S256` method
named in the URL). -/

/-- Modelled from the external `openid-client` `generators` module:
`state()` and `codeVerifier()` draw fresh random strings per login
attempt (here keyed by the attempt), and `codeChallenge(v)` is the
deterministic S256 derivation (SHA-256 then base64url) of `v`. -/
structure Generators where
  state : Nat → String
  codeVerifier : Nat → String
  codeChallenge : String → String

/-- The parameters `auth()` places in `authorizationUrl({...})`. -/
structure AuthorizationUrlParams where
  scope : String
  state : String
  code_challenge : String
  code_challenge_method : String
deriving DecidableEq

/-- The checks `auth()` passes to `neonOAuthClient.callback(...)`. -/
structure CallbackChecks where
  code_verifier : String
  state : String
deriving DecidableEq

/-- The DEFAULT_SCOPES constant from the source (the non-negotiable
scope set). -/
def DEFAULT_SCOPES : List String :=
  ["openid",
   "offline",
   "offline_access",
   "urn:neoncloud:projects:create",
   "urn:neoncloud:projects:read",
   "urn:neoncloud:projects:modify",
   "urn:neoncloud:projects:delete"]

/-- The PKCE wiring of one `auth()` attempt: the authorization-URL
parameters and the checks later handed to the token exchange, both
derived from the fresh draws of the attempt. -/
def authPkce (g : Generators) (attempt : Nat) : AuthorizationUrlParams × CallbackChecks :=
  let state := g.state attempt
  let codeVerifier := g.codeVerifier attempt
  let codeChallenge := g.codeChallenge codeVerifier
  ({ scope := String.intercalate " " DEFAULT_SCOPES,
     state := state,
     code_challenge := codeChallenge,
     code_challenge_method := "S256" },
   { code_verifier := codeVerifier, state := state })

/-! ## Shared sample inputs (used by witnesses and counterexamples) -/

/-- A typical invocation reaching the credential-file logic: one
non-`auth` positional argument, no `--help`, no explicit API key, no
forced-interactive flag. -/
def sampleProps : AuthProps :=
  ⟨["projects"], false, "", false, "/home/u/.config/neonctl",
   "https://oauth.example", "neonctl", "https://api.example"⟩

/-- An oracle whose collaborators all succeed, parameterised by the
credential file state: clock at 50, not CI, refresh yields a fresh
token set, interactive login yields another, identity resolves to
"u1". -/
def sampleOracle (cf : CredFile) : Oracle :=
  ⟨50, false, cf,
   fun _ => .ok ⟨some "refreshed-tok", some "r2", some 2000⟩,
   .ok ⟨some "fresh-tok", some "r3", some 3000⟩,
   fun _ => .ok "u1"⟩

/-- Like `sampleOracle` but the refresh grant fails with a network
error. -/
def sampleOracleNoRefresh (cf : CredFile) : Oracle :=
  ⟨50, false, cf,
   fun _ => .error ⟨"connect ETIMEDOUT", none⟩,
   .ok ⟨some "fresh-tok", some "r3", some 3000⟩,
   fun _ => .ok "u1"⟩

/-! ## Helper lemmas -/

theorem containsSubstr_sentinel_self :
    containsSubstr "AUTH_REFRESH_FAILED" "AUTH_REFRESH_FAILED" = true := by
  decide

/-- A closed listener serves no request and writes no response. -/
theorem serveAll_closed (exchange : HttpRequest → Except JsError TokenSetData)
    (x : Option TokenSetData) (rs : List HttpRequest) :
    serveAll exchange ⟨x, true⟩ rs = (⟨x, true⟩, rs.map fun _ => none) := by
  induction rs with
  | nil => rfl
  | cons r rs ih => simp [serveAll, handleRequest, ih]

/-- Requests that miss the callback path all get a 404 and leave the
receiver in its initial (open, unresolved) state. -/
theorem serveAll_all_notFound (exchange : HttpRequest → Except JsError TokenSetData)
    (rs : List HttpRequest)
    (h : ∀ r ∈ rs, strStartsWith "/callback" r.url = false) :
    serveAll exchange initialServer rs
      = (initialServer, rs.map fun _ => some HttpResponse.notFound) := by
  induction rs with
  | nil => rfl
  | cons r rs ih =>
      have hr := h r (by simp)
      have ih' := ih fun q hq => h q (by simp [hq])
      have hstep : handleRequest exchange initialServer r
          = (initialServer, some HttpResponse.notFound) := by
        simp [handleRequest, initialServer, hr]
      simp only [serveAll, hstep, ih', List.map_cons]

/-- Serving a concatenation is serving the parts in sequence. -/
theorem serveAll_append (exchange : HttpRequest → Except JsError TokenSetData)
    (st : ServerState) (xs ys : List HttpRequest) :
    serveAll exchange st (xs ++ ys)
      = ((serveAll exchange (serveAll exchange st xs).1 ys).1,
         (serveAll exchange st xs).2 ++ (serveAll exchange (serveAll exchange st xs).1 ys).2) := by
  induction xs generalizing st with
  | nil => simp [serveAll]
  | cons x xs ih => simp [serveAll, ih]

/-- Every file write performed by `preserveCredentials` carries a
user id obtained from a successful identity lookup on the very token
set written. -/
theorem write_in_preserveCredentials {credentials : TokenSetData} {o : Oracle}
    {sc : StoredCredential}
    (h : Event.fileWrite sc ∈ (preserveCredentials credentials o).2) :
    o.identity sc.tok = .ok sc.user_id := by
  have h' := h
  unfold preserveCredentials at h'
  cases hid : o.identity credentials with
  | error e =>
      rw [hid] at h'
      cases List.mem_singleton.mp h'
  | ok id =>
      rw [hid] at h'
      rcases List.mem_cons.mp h' with hveq | h2
      · cases hveq
      · cases List.mem_singleton.mp h2
        simpa using hid

/-- Every file write performed by `authFlow` carries a user id obtained
from a successful identity lookup on the written token set. -/
theorem write_in_authFlow {p : AuthProps} {o : Oracle} {sc : StoredCredential}
    (h : Event.fileWrite sc ∈ (authFlow p o).2) :
    o.identity sc.tok = .ok sc.user_id := by
  have h' := h
  unfold authFlow at h'
  by_cases hci : (!p.forceAuth && o.ci) = true
  · rw [if_pos hci] at h'
    cases h'
  · rw [if_neg hci] at h'
    cases hl : o.login with
    | error e =>
        rw [hl] at h'
        cases List.mem_singleton.mp h'
    | ok tokenSet =>
        rw [hl] at h'
        rcases List.mem_cons.mp h' with hveq | h2
        · cases hveq
        · exact write_in_preserveCredentials h2

/-- Every file write performed by the catch clause either happened
inside the try block before the throw (`evs`) or inside the fallback
`authFlow`. -/
theorem write_in_ensureAuthCatch {p : AuthProps} {o : Oracle} {e : JsError}
    {evs : List Event} {sc : StoredCredential}
    (hevs : Event.fileWrite sc ∈ evs → o.identity sc.tok = .ok sc.user_id)
    (h : Event.fileWrite sc ∈ (ensureAuthCatch p o e evs).2) :
    o.identity sc.tok = .ok sc.user_id := by
  have h' := h
  unfold ensureAuthCatch at h'
  by_cases hc : (containsSubstr "AUTH_REFRESH_FAILED" e.message || e.code == some "ENOENT") = true
  · rw [if_pos hc] at h'
    rcases List.mem_append.mp h' with h2 | h2
    · exact hevs h2
    · exact write_in_authFlow h2
  · rw [if_neg hc] at h'
    exact hevs h'

/-! ## Claim theorems -/

/-- C2: whenever the credential file exists, parses, and the token set
is not expired, `ensureAuth` sets the cached `access_token` as the
`apiKey` and performs no external action at all (empty trace): no
issuer discovery, no interactive login, no token refresh. -/
theorem ensureAuth_uses_valid_cached (p : AuthProps) (o : Oracle)
    (tok : TokenSetData) (t : String)
    (hargs : p.args.isEmpty = false) (hhelp : p.help = false)
    (hkey : p.apiKey = "") (hcmd : p.args.head? ≠ some "auth")
    (hfile : o.credFile = .parsed tok)
    (hexp : tok.expired o.now = false)
    (htok : tok.access_token = some t) (hne : t ≠ "") :
    ensureAuth p o = (.ok (.authorized t), []) := by
  simp [ensureAuth, hargs, hhelp, hkey, hcmd, hfile, hexp, htok, jsOr, hne]

/-- Closed instance of C2: a cached, unexpired token is returned as-is
with an empty action trace. -/
theorem ensureAuth_uses_valid_cached_witness :
    ensureAuth sampleProps (sampleOracle (.parsed ⟨some "cached-tok", some "r1", some 100⟩))
      = (.ok (.authorized "cached-tok"), []) :=
  ensureAuth_uses_valid_cached sampleProps
    (sampleOracle (.parsed ⟨some "cached-tok", some "r1", some 100⟩))
    ⟨some "cached-tok", some "r1", some 100⟩ "cached-tok"
    rfl rfl rfl (by decide) rfl (by decide) rfl (by decide)

/-- C4: a read error on the credential file other than `ENOENT` (and
whose message does not contain the refresh sentinel) — e.g. a
permissions fault — propagates as-is out of `ensureAuth`, with an
empty trace: the interactive login flow is not triggered. -/
theorem ensureAuth_propagates_other_read_errors (p : AuthProps) (o : Oracle)
    (e : JsError)
    (hargs : p.args.isEmpty = false) (hhelp : p.help = false)
    (hkey : p.apiKey = "") (hcmd : p.args.head? ≠ some "auth")
    (hfile : o.credFile = .readError e)
    (hmsg : containsSubstr "AUTH_REFRESH_FAILED" e.message = false)
    (hcode : e.code ≠ some "ENOENT") :
    ensureAuth p o = (.error e, []) := by
  simp [ensureAuth, ensureAuthCatch, hargs, hhelp, hkey, hcmd, hfile, hmsg, hcode]

/-- Closed instance of C4: an `EACCES` read error propagates and no
login is attempted. -/
theorem ensureAuth_propagates_other_read_errors_witness :
    ensureAuth sampleProps
        (sampleOracle (.readError ⟨"EACCES: permission denied, open credentials.json", some "EACCES"⟩))
      = (.error ⟨"EACCES: permission denied, open credentials.json", some "EACCES"⟩, []) :=
  ensureAuth_propagates_other_read_errors sampleProps
    (sampleOracle (.readError ⟨"EACCES: permission denied, open credentials.json", some "EACCES"⟩))
    ⟨"EACCES: permission denied, open credentials.json", some "EACCES"⟩
    rfl rfl rfl (by decide) rfl (by decide) (by decide)

/-- C7: with the forced-interactive flag off and `isCi()` true,
`authFlow` throws the CI refusal immediately and its trace is empty —
no HTTP listener is started and no browser is launched. -/
theorem authFlow_refuses_unattended (p : AuthProps) (o : Oracle)
    (hforce : p.forceAuth = false) (hci : o.ci = true) :
    authFlow p o = (.error ⟨"Cannot run interactive auth in CI", none⟩, []) := by
  simp [authFlow, hforce, hci]

/-- Closed instance of C7: the CI refusal with an empty trace. -/
theorem authFlow_refuses_unattended_witness :
    authFlow sampleProps { sampleOracle .absent with ci := true }
      = (.error ⟨"Cannot run interactive auth in CI", none⟩, []) :=
  authFlow_refuses_unattended sampleProps { sampleOracle .absent with ci := true } rfl rfl

/-- C8: for an expired credential file whose refresh succeeds,
`ensureAuth` uses the refreshed `access_token` as the `apiKey` and the
single file write carries exactly the refreshed token set plus the
resolved user id — the whole new file contents, independent of the old
file (full overwrite, not a merge). -/
theorem ensureAuth_refresh_success_overwrites (p : AuthProps) (o : Oracle)
    (tok rtok : TokenSetData) (uid t : String)
    (hargs : p.args.isEmpty = false) (hhelp : p.help = false)
    (hkey : p.apiKey = "") (hcmd : p.args.head? ≠ some "auth")
    (hfile : o.credFile = .parsed tok)
    (hexp : tok.expired o.now = true)
    (hr : o.refresh tok = .ok rtok)
    (hid : o.identity rtok = .ok uid)
    (htok : rtok.access_token = some t) (hne : t ≠ "") :
    ensureAuth p o
      = (.ok (.authorized t),
         [.refreshCall, .identityCall, .fileWrite ⟨rtok, uid⟩]) := by
  simp [ensureAuth, preserveCredentials, hargs, hhelp, hkey, hcmd, hfile, hexp,
        hr, hid, htok, jsOr, hne]

/-- Closed instance of C8: the refreshed token set plus `user_id` is
the whole write, and its `access_token` becomes the key. -/
theorem ensureAuth_refresh_success_overwrites_witness :
    ensureAuth sampleProps (sampleOracle (.parsed ⟨some "old-tok", some "r1", some 10⟩))
      = (.ok (.authorized "refreshed-tok"),
         [.refreshCall, .identityCall,
          .fileWrite ⟨⟨some "refreshed-tok", some "r2", some 2000⟩, "u1"⟩]) :=
  ensureAuth_refresh_success_overwrites sampleProps
    (sampleOracle (.parsed ⟨some "old-tok", some "r1", some 10⟩))
    ⟨some "old-tok", some "r1", some 10⟩ ⟨some "refreshed-tok", some "r2", some 2000⟩
    "u1" "refreshed-tok"
    rfl rfl rfl (by decide) rfl (by decide) rfl rfl rfl (by decide)

/-- C9: in every login attempt, the `code_challenge` placed in the
authorization URL is the deterministic S256 derivation
(`generators.codeChallenge`) of exactly the `code_verifier` later
passed to the code-for-token exchange; the method advertised is
`S256`, and both verifier and state are fresh draws of this attempt,
shared between the URL and the exchange checks. -/
theorem pkce_challenge_matches_verifier (g : Generators) (attempt : Nat) :
    (authPkce g attempt).1.code_challenge
        = g.codeChallenge (authPkce g attempt).2.code_verifier
    ∧ (authPkce g attempt).1.code_challenge_method = "S256"
    ∧ (authPkce g attempt).2.code_verifier = g.codeVerifier attempt
    ∧ (authPkce g attempt).1.state = g.state attempt
    ∧ (authPkce g attempt).2.state = g.state attempt :=
  ⟨rfl, rfl, rfl, rfl, rfl⟩

/-- Like `sampleOracle` but the identity lookup fails. -/
def sampleOracleNoIdentity (cf : CredFile) : Oracle :=
  ⟨50, false, cf,
   fun _ => .ok ⟨some "refreshed-tok", some "r2", some 2000⟩,
   .ok ⟨some "fresh-tok", some "r3", some 3000⟩,
   fun _ => .error ⟨"request failed with status 401", none⟩⟩

/-- Like `sampleOracle` but the refresh grant yields a token set with
no `access_token`. -/
def sampleOracleRefreshNoToken (cf : CredFile) : Oracle :=
  ⟨50, false, cf,
   fun _ => .ok ⟨none, some "r2", some 2000⟩,
   .ok ⟨some "fresh-tok", some "r3", some 3000⟩,
   fun _ => .ok "u1"⟩

/-- Like `sampleOracle` but the interactive login yields a token set
with no `access_token`. -/
def sampleOracleLoginNoToken (cf : CredFile) : Oracle :=
  ⟨50, false, cf,
   fun _ => .ok ⟨some "refreshed-tok", some "r2", some 2000⟩,
   .ok ⟨none, none, some 3000⟩,
   fun _ => .ok "u1"⟩

/-- A code-for-token exchange that accepts exactly one callback URL. -/
def sampleExchange : HttpRequest → Except JsError TokenSetData :=
  fun r =>
    if r.url = "/callback?code=abc&state=S" then
      .ok ⟨some "tok1", some "r1", some 1000⟩
    else
      .error ⟨"invalid request", none⟩

/-- C1 counterexample: a concrete corrupt credential file (unparseable
JSON, whose `SyntaxError` message does not contain the refresh
sentinel) makes `ensureAuth` propagate the parse error with an empty
trace — no interactive login is attempted, even though the login
collaborator would have succeeded — contradicting the claim that a
corrupt file always leads to interactive login. -/
theorem ensureAuth_corrupt_propagates_cex :
    ensureAuth sampleProps
        (sampleOracle (.corrupt "Unexpected token o in JSON at position 0"))
      = (.error ⟨"Unexpected token o in JSON at position 0", none⟩, [])
    ∧ Event.loginFlow ∉
        (ensureAuth sampleProps
          (sampleOracle (.corrupt "Unexpected token o in JSON at position 0"))).2 := by
  constructor
  · rfl
  · intro hmem
    have h2 : (ensureAuth sampleProps
        (sampleOracle (.corrupt "Unexpected token o in JSON at position 0"))).2
          = ([] : List Event) := rfl
    rw [h2] at hmem
    cases hmem

/-- C1 (amended): a missing credential file — `existsSync` false, or a
read that fails with `ENOENT` — leads to the interactive login flow;
but a file that exists and reads while containing unparseable JSON
makes the parse error propagate to the caller with no login attempted
(unless the error message happens to contain the refresh sentinel). -/
theorem ensureAuth_missing_logs_in_corrupt_propagates (p : AuthProps) (o : Oracle)
    (e : JsError) (msg : String)
    (hargs : p.args.isEmpty = false) (hhelp : p.help = false)
    (hkey : p.apiKey = "") (hcmd : p.args.head? ≠ some "auth")
    (hci : (!p.forceAuth && o.ci) = false)
    (hmsg : containsSubstr "AUTH_REFRESH_FAILED" msg = false) :
    (o.credFile = .absent → Event.loginFlow ∈ (ensureAuth p o).2)
    ∧ (o.credFile = .readError e → e.code = some "ENOENT" →
        Event.loginFlow ∈ (ensureAuth p o).2)
    ∧ (o.credFile = .corrupt msg →
        ensureAuth p o = (.error ⟨msg, none⟩, [])) := by
  refine ⟨?_, ?_, ?_⟩
  · intro hfile
    have htr : (ensureAuth p o).2 = (authFlow p o).2 := by
      simp [ensureAuth, hargs, hhelp, hkey, hcmd, hfile]
    rw [htr]
    cases hl : o.login <;> simp [authFlow, hci, hl]
  · intro hfile hcode
    have htr : (ensureAuth p o).2 = (authFlow p o).2 := by
      simp [ensureAuth, ensureAuthCatch, hargs, hhelp, hkey, hcmd, hfile, hcode]
    rw [htr]
    cases hl : o.login <;> simp [authFlow, hci, hl]
  · intro hfile
    simp [ensureAuth, ensureAuthCatch, hargs, hhelp, hkey, hcmd, hfile, hmsg]

/-- Closed instance of the amended C1: with the same collaborators, an
absent file does trigger the login flow, and a corrupt file instead
propagates its parse error untouched. -/
theorem ensureAuth_missing_logs_in_corrupt_propagates_witness :
    Event.loginFlow ∈ (ensureAuth sampleProps (sampleOracle .absent)).2
    ∧ ensureAuth sampleProps
        (sampleOracle (.corrupt "Unexpected end of JSON input"))
      = (.error ⟨"Unexpected end of JSON input", none⟩, []) :=
  ⟨(ensureAuth_missing_logs_in_corrupt_propagates sampleProps (sampleOracle .absent)
      ⟨"x", none⟩ "Unexpected end of JSON input"
      rfl rfl rfl (by decide) rfl (by decide)).1 rfl,
   (ensureAuth_missing_logs_in_corrupt_propagates sampleProps
      (sampleOracle (.corrupt "Unexpected end of JSON input"))
      ⟨"x", none⟩ "Unexpected end of JSON input"
      rfl rfl rfl (by decide) rfl (by decide)).2.2 rfl⟩

/-- C3: for an expired credential file whose refresh fails,
`ensureAuth` swallows the failure, falls back to the interactive login
flow, and — when login and the subsequent save succeed — completes
with the fresh token: the refresh failure is never surfaced to the
caller. -/
theorem ensureAuth_refresh_failure_self_heals (p : AuthProps) (o : Oracle)
    (tok : TokenSetData) (e : JsError) (ltok : TokenSetData) (uid : String)
    (hargs : p.args.isEmpty = false) (hhelp : p.help = false)
    (hkey : p.apiKey = "") (hcmd : p.args.head? ≠ some "auth")
    (hfile : o.credFile = .parsed tok)
    (hexp : tok.expired o.now = true)
    (hr : o.refresh tok = .error e)
    (hci : (!p.forceAuth && o.ci) = false)
    (hl : o.login = .ok ltok)
    (hid : o.identity ltok = .ok uid) :
    ensureAuth p o
      = (.ok (.authorized (jsOr ltok.access_token "")),
         [.refreshCall, .loginFlow, .identityCall, .fileWrite ⟨ltok, uid⟩]) := by
  simp [ensureAuth, ensureAuthCatch, authFlow, preserveCredentials, Except.map,
        containsSubstr_sentinel_self, hargs, hhelp, hkey, hcmd, hfile, hexp,
        hr, hci, hl, hid]

/-- Closed instance of C3: refresh fails with a network error, login
succeeds, and the caller sees only the successful fresh token. -/
theorem ensureAuth_refresh_failure_self_heals_witness :
    ensureAuth sampleProps (sampleOracleNoRefresh (.parsed ⟨some "old-tok", some "r1", some 10⟩))
      = (.ok (.authorized "fresh-tok"),
         [.refreshCall, .loginFlow, .identityCall,
          .fileWrite ⟨⟨some "fresh-tok", some "r3", some 3000⟩, "u1"⟩]) :=
  ensureAuth_refresh_failure_self_heals sampleProps
    (sampleOracleNoRefresh (.parsed ⟨some "old-tok", some "r1", some 10⟩))
    ⟨some "old-tok", some "r1", some 10⟩ ⟨"connect ETIMEDOUT", none⟩
    ⟨some "fresh-tok", some "r3", some 3000⟩ "u1"
    rfl rfl rfl (by decide) rfl (by decide) rfl rfl rfl rfl

/-- C5: `preserveCredentials` writes nothing when the identity lookup
fails, and — across every `ensureAuth` run — any file write that does
happen carries a `StoredCredential` whose `user_id` was obtained from
a successful identity lookup on exactly the token set being written. -/
theorem credential_write_requires_identity (p : AuthProps) (o : Oracle)
    (credentials : TokenSetData) :
    (∀ e, o.identity credentials = .error e →
        ∀ sc, Event.fileWrite sc ∉ (preserveCredentials credentials o).2)
    ∧ (∀ sc, Event.fileWrite sc ∈ (ensureAuth p o).2 →
        o.identity sc.tok = .ok sc.user_id) := by
  constructor
  · intro e he sc hmem
    unfold preserveCredentials at hmem
    rw [he] at hmem
    cases List.mem_singleton.mp hmem
  · intro sc hmem
    unfold ensureAuth at hmem
    split at hmem
    · cases hmem
    split at hmem
    · cases hmem
    split at hmem
    · exact write_in_authFlow hmem
    · exact write_in_ensureAuthCatch
        (fun hx => absurd hx (List.not_mem_nil _)) hmem
    · exact write_in_ensureAuthCatch
        (fun hx => absurd hx (List.not_mem_nil _)) hmem
    rename_i tokenSet hcf
    split at hmem
    · split at hmem
      · refine write_in_ensureAuthCatch ?_ hmem
        intro hx
        cases List.mem_singleton.mp hx
      · rename_i rtok hr
        rcases hw : preserveCredentials rtok o with ⟨res, evs⟩
        rw [hw] at hmem
        cases res with
        | error e2 =>
            have hmem2 : Event.fileWrite sc
                ∈ (ensureAuthCatch p o e2 (.refreshCall :: evs)).2 := hmem
            refine write_in_ensureAuthCatch ?_ hmem2
            intro hx
            rcases List.mem_cons.mp hx with hveq | h2
            · cases hveq
            · exact write_in_preserveCredentials (by rw [hw]; exact h2)
        | ok sc2 =>
            have hmem2 : Event.fileWrite sc ∈
                (Event.refreshCall :: evs) := hmem
            rcases List.mem_cons.mp hmem2 with hveq | h2
            · cases hveq
            · exact write_in_preserveCredentials (by rw [hw]; exact h2)
    · cases hmem

/-- Closed instance of C5: with a failing identity lookup,
`preserveCredentials` emits no file write. -/
theorem credential_write_requires_identity_witness :
    Event.fileWrite ⟨⟨some "fresh-tok", some "r3", some 3000⟩, "u1"⟩
      ∉ (preserveCredentials ⟨some "fresh-tok", some "r3", some 3000⟩
          (sampleOracleNoIdentity .absent)).2 :=
  (credential_write_requires_identity sampleProps (sampleOracleNoIdentity .absent)
      ⟨some "fresh-tok", some "r3", some 3000⟩).1
    ⟨"request failed with status 401", none⟩ rfl
    ⟨⟨some "fresh-tok", some "r3", some 3000⟩, "u1"⟩

/-- C6: for any request sequence, every request ahead of the first one
hitting the callback path gets a 404 and leaves the receiver open and
unresolved; the first matching request (whose exchange succeeds)
resolves the wait with the token set and closes the listener; every
request after it is not served at all. -/
theorem loopback_receiver_one_shot
    (exchange : HttpRequest → Except JsError TokenSetData)
    (front back : List HttpRequest) (m : HttpRequest) (tok : TokenSetData)
    (hfront : ∀ r ∈ front, strStartsWith "/callback" r.url = false)
    (hm : strStartsWith "/callback" m.url = true)
    (hex : exchange m = .ok tok) :
    serveAll exchange initialServer (front ++ m :: back)
      = (⟨some tok, true⟩,
         (front.map fun _ => some HttpResponse.notFound)
           ++ some HttpResponse.successPage :: (back.map fun _ => none))
    ∧ serveAll exchange initialServer front
      = (initialServer, front.map fun _ => some HttpResponse.notFound) := by
  have hfr := serveAll_all_notFound exchange front hfront
  have hm1 : handleRequest exchange initialServer m
      = (⟨some tok, true⟩, some HttpResponse.successPage) := by
    simp [handleRequest, initialServer, hm, hex]
  refine ⟨?_, hfr⟩
  rw [serveAll_append, hfr]
  simp only [serveAll, hm1, serveAll_closed]

/-- Closed instance of C6: two stray requests get 404s, the callback
hit resolves and closes, a late request is not served. -/
theorem loopback_receiver_one_shot_witness :
    serveAll sampleExchange initialServer
        [⟨"/"⟩, ⟨"/favicon.ico"⟩, ⟨"/callback?code=abc&state=S"⟩, ⟨"/callback?code=late"⟩]
      = (⟨some ⟨some "tok1", some "r1", some 1000⟩, true⟩,
         [some .notFound, some .notFound, some .successPage, none]) :=
  (loopback_receiver_one_shot sampleExchange
      [⟨"/"⟩, ⟨"/favicon.ico"⟩] [⟨"/callback?code=late"⟩]
      ⟨"/callback?code=abc&state=S"⟩ ⟨some "tok1", some "r1", some 1000⟩
      (by decide) rfl rfl).1

/-- C10: when a token set has no `access_token`, the program
substitutes a placeholder instead of failing: `ensureAuth` uses the
literal `"UNKNOWN"` as the `apiKey` on both the cached and the
refreshed paths, and `authFlow` returns the empty string. -/
theorem missing_access_token_placeholder (p : AuthProps) (o : Oracle)
    (tok rtok ltok : TokenSetData) (uid : String)
    (hargs : p.args.isEmpty = false) (hhelp : p.help = false)
    (hkey : p.apiKey = "") (hcmd : p.args.head? ≠ some "auth") :
    (o.credFile = .parsed tok → tok.expired o.now = false →
      tok.access_token = none →
      (ensureAuth p o).1 = .ok (.authorized "UNKNOWN"))
    ∧ (o.credFile = .parsed tok → tok.expired o.now = true →
      o.refresh tok = .ok rtok → rtok.access_token = none →
      o.identity rtok = .ok uid →
      (ensureAuth p o).1 = .ok (.authorized "UNKNOWN"))
    ∧ ((!p.forceAuth && o.ci) = false → o.login = .ok ltok →
      ltok.access_token = none → o.identity ltok = .ok uid →
      (authFlow p o).1 = .ok "") := by
  refine ⟨?_, ?_, ?_⟩
  · intro hfile hexp htok
    simp [ensureAuth, hargs, hhelp, hkey, hcmd, hfile, hexp, htok, jsOr]
  · intro hfile hexp hr htok hid
    simp [ensureAuth, preserveCredentials, hargs, hhelp, hkey, hcmd, hfile,
          hexp, hr, htok, hid, jsOr]
  · intro hci hl htok hid
    simp [authFlow, preserveCredentials, Except.map, hci, hl, htok, hid, jsOr]

/-- Closed instance of C10: all three placeholder paths at concrete
token sets lacking `access_token`. -/
theorem missing_access_token_placeholder_witness :
    (ensureAuth sampleProps (sampleOracle (.parsed ⟨none, some "r1", some 100⟩))).1
        = .ok (.authorized "UNKNOWN")
    ∧ (ensureAuth sampleProps
        (sampleOracleRefreshNoToken (.parsed ⟨none, some "r1", some 10⟩))).1
        = .ok (.authorized "UNKNOWN")
    ∧ (authFlow sampleProps (sampleOracleLoginNoToken .absent)).1 = .ok "" :=
  ⟨(missing_access_token_placeholder sampleProps
      (sampleOracle (.parsed ⟨none, some "r1", some 100⟩))
      ⟨none, some "r1", some 100⟩ ⟨none, some "r1", some 100⟩
      ⟨none, some "r1", some 100⟩ "u1"
      rfl rfl rfl (by decide)).1 rfl (by decide) rfl,
   (missing_access_token_placeholder sampleProps
      (sampleOracleRefreshNoToken (.parsed ⟨none, some "r1", some 10⟩))
      ⟨none, some "r1", some 10⟩ ⟨none, some "r2", some 2000⟩
      ⟨none, some "r2", some 2000⟩ "u1"
      rfl rfl rfl (by decide)).2.1 rfl (by decide) rfl rfl rfl,
   (missing_access_token_placeholder sampleProps
      (sampleOracleLoginNoToken .absent)
      ⟨none, none, some 3000⟩ ⟨none, none, some 3000⟩
      ⟨none, none, some 3000⟩ "u1"
      rfl rfl rfl (by decide)).2.2 rfl rfl rfl rfl⟩

end NeonAuth
